import Mathlib

/-!
# Verification of `pimsviewer` widget logic (`widgets.py`)

Shallow embedding of the two non-GUI components of the repository:

* `VideoTimer` (the spec's *PlaybackClock*): frame-index computation from
  wall-clock elapsed time (`widgets.py`, class `VideoTimer`).
* `Slider` (the spec's *RangeSlider*): mapping between a numeric domain and a
  fixed-resolution integer slider control (`widgets.py`, class `Slider`).

Conventions of the embedding:

* Python floats and wall-clock times are modelled as rationals (`ℚ`);
  Python ints as `ℤ`.
* Python attributes that may be `None` or may not exist yet are modelled as
  `Option` fields; both a `None` value and a missing attribute make the
  operations that use them raise, which the embedding renders as
  `Except.error` with the Python exception's name.
* Python's float floor division `a // b` is `Int.floor (a / b)`; Python's `%`
  (sign of the divisor) is `Int.fmod`.
* The Qt binding's conversion of a Python number to a C++ `int` argument
  (e.g. in `QSlider.setValue`) is modelled as rounding to the nearest
  integer, and `QSlider.setValue` clamps its argument into the control's
  range, as the Qt slider does.
-/

/-- Python `%` on integers: remainder with the sign of the divisor. -/
def pyMod (a n : ℤ) : ℤ := Int.fmod a n

/-- Python float floor-division `a // b` followed by `int(...)`:
the quotient is already integral after `//`, so this is `⌊a / b⌋`. -/
def pyFloorDiv (a b : ℚ) : ℤ := Int.floor (a / b)

/-- The Qt binding's Python-number → C++ `int` argument conversion,
modelled as rounding to the nearest integer. -/
def qtIntOf (x : ℚ) : ℤ := round x

/-- `QSlider.setValue` clamps the requested position into `[lo, hi]`. -/
def qtClamp (lo hi x : ℤ) : ℤ := max lo (min hi x)

/-!
## `VideoTimer` (spec: PlaybackClock) — `widgets.py` lines 19–50
-/

/-- A Python instance attribute that may not exist at all (never assigned,
so reading it raises `AttributeError`), may hold `None` (reading succeeds,
arithmetic on it raises `TypeError`), or may hold a value. -/
inductive PyAttr (α : Type)
  | missing
  | pynone
  | val (a : α)
deriving DecidableEq, Repr

/-- State of a `VideoTimer`.

`interval` is `self._interval`: it does not exist until `fps` is first
assigned (`__init__` never sets it, and no code ever sets it to `None`),
hence `Option` with `none` = missing.  `tickPeriodMs` is the period handed
to the Qt timer by `setInterval`.  `start_index` and `start_time` are
`self.start_index` and `self.start_time`: never assigned by `__init__`
(missing on a fresh timer), a value after `start`, `None` after `stop` —
hence `PyAttr`.  `len` is `self._len`: `__init__` assigns it `None`, so it
is never missing and `Option` suffices (`none` = `None`).  `running` is
the Qt timer's active flag (`super().start()`/`super().stop()`).
`__init__` also sets `self.index = None`, which no other code reads, so it
is omitted. -/
structure TimerState where
  interval : Option ℚ
  tickPeriodMs : Option ℚ
  start_index : PyAttr ℤ
  len : Option ℤ
  start_time : PyAttr ℚ
  running : Bool
deriving DecidableEq, Repr

/-- `VideoTimer.__init__`: no `_interval`, `start_index` and `start_time`
attributes never created, `_len = None`, timer not running. -/
def timerInit : TimerState :=
  { interval := none, tickPeriodMs := none, start_index := .missing,
    len := none, start_time := .missing, running := false }

/-- `fps` getter (`widgets.py` 27–29): `return 1 / self._interval`.
Raises `AttributeError` if `_interval` was never assigned. -/
def fpsGet (s : TimerState) : Except String ℚ :=
  match s.interval with
  | none => .error "AttributeError"
  | some iv =>
    if iv = 0 then .error "ZeroDivisionError" else .ok (1 / iv)

/-- `fps` setter (`widgets.py` 30–33): `self._interval = 1 / value;
self.setInterval(self._interval * 1000)`.  No sign validation: only
`value = 0` raises (`ZeroDivisionError`). -/
def fpsSet (s : TimerState) (value : ℚ) : Except String TimerState :=
  if value = 0 then .error "ZeroDivisionError"
  else
    .ok { s with interval := some (1 / value),
                 tickPeriodMs := some ((1 / value) * 1000) }

/-- `VideoTimer.start(index, length)` (`widgets.py` 35–39): records the
start data and the current wall-clock time, unconditionally. -/
def timerStart (s : TimerState) (index length : ℤ) (now : ℚ) : TimerState :=
  { s with start_index := .val index, len := some length,
           start_time := .val now, running := true }

/-- `VideoTimer.stop()` (`widgets.py` 41–45): stops the Qt timer and clears
the start data to `None`. -/
def timerStop (s : TimerState) : TimerState :=
  { s with start_index := .pynone, len := none, start_time := .pynone,
           running := false }

/-- `VideoTimer.next()` (`widgets.py` 47–50):

    index = int((time() - self.start_time) // self._interval)
    index = (index + self.start_index) % self._len
    self.next_frame.emit(index)

Returns the emitted frame index, or the Python exception raised, in the
order the expression evaluates: reading a never-assigned `start_time` or
`start_index` is an `AttributeError` and `time() - None` (or `+ None`) a
`TypeError`; a missing `_interval` is an `AttributeError`; `// 0.0` and
`% 0` are `ZeroDivisionError`; `% None` is a `TypeError`. -/
def timerNext (s : TimerState) (now : ℚ) : Except String ℤ :=
  match s.start_time with
  | .missing => .error "AttributeError"
  | .pynone => .error "TypeError"
  | .val st =>
    match s.interval with
    | none => .error "AttributeError"
    | some iv =>
      if iv = 0 then .error "ZeroDivisionError"
      else
        match s.start_index with
        | .missing => .error "AttributeError"
        | .pynone => .error "TypeError"
        | .val si =>
          match s.len with
          | none => .error "TypeError"
          | some n =>
            if n = 0 then .error "ZeroDivisionError"
            else .ok (pyMod (pyFloorDiv (now - st) iv + si) n)

/-!
## `Slider` (spec: RangeSlider) — `widgets.py` lines 53–196
-/

/-- The slider's `value_type`, after the constructor has validated the
`'float' | 'int'` string. -/
inductive ValueType
  | vtFloat
  | vtInt
deriving DecidableEq, Repr

/-- State of a `Slider`.

`low`, `high` are `self._low`, `self._high`; `scale` is `self._scale`
(assigned only for float sliders; a Python int slider never reads it, the
embedding stores `0` there).  `sMin`, `sMax`, `position` are the underlying
`QSlider`'s range and current position (`setRange` / `value`).  `editGood`
is the edit box's style sheet: `true` for the white "good input"
background, `false` for the red "bad input" one.  The displayed text
itself and the layout are GUI plumbing and are not modelled. -/
structure SliderState where
  name : String
  value_type : ValueType
  low : ℚ
  high : ℚ
  scale : ℚ
  sMin : ℤ
  sMax : ℤ
  position : ℤ
  editGood : Bool
deriving DecidableEq, Repr

/-- `val` getter (`widgets.py` 178–183): read the control position; for a
float slider map it back to the domain by `value * self._scale + self._low`. -/
def getVal (s : SliderState) : ℚ :=
  match s.value_type with
  | .vtFloat => (s.position : ℚ) * s.scale + s.low
  | .vtInt => (s.position : ℚ)

/-- `val` setter (`widgets.py` 185–196): for a float slider compute
`(value - self._low) / self._scale` (raising `ZeroDivisionError` when
`_scale = 0`, i.e. `low = high`) and hand it to `QSlider.setValue`, which
converts it to `int` and clamps it into the control range; for an int
slider hand `value` to `setValue` directly.  No range check is performed.
(The `editbox.setText` call only updates displayed text, not modelled.) -/
def setVal (s : SliderState) (value : ℚ) : Except String SliderState :=
  match s.value_type with
  | .vtFloat =>
    if s.scale = 0 then .error "ZeroDivisionError"
    else
      .ok { s with
              position := qtClamp s.sMin s.sMax (qtIntOf ((value - s.low) / s.scale)) }
  | .vtInt => .ok { s with position := qtClamp s.sMin s.sMax (qtIntOf value) }

/-- Common tail of `Slider.__init__` after the `value_type` branch: build
the state, run `self.val = value` (which may raise), then validate
`update_on` (`widgets.py` 123–134). -/
def sliderInitCore (name : String) (low high : ℚ) (vt : ValueType)
    (scale : ℚ) (sMin sMax : ℤ) (value : ℚ) (update_on : String) :
    Except String SliderState :=
  let s0 : SliderState :=
    { name := name, value_type := vt, low := low, high := high,
      scale := scale, sMin := sMin, sMax := sMax, position := sMin,
      editGood := true }
  match setVal s0 value with
  | .error e => .error e
  | .ok s1 =>
    if update_on = "move" ∨ update_on = "release" then .ok s1
    else .error "ValueError: update_on"

/-- `Slider.__init__` (`widgets.py` 80–134), restricted to the numeric
state.  `value0 = none` is Python's `value=None`, defaulted to
`(high - low) / 2.` (line 86).  `orientation` is validated first
(lines 90–104), then `value_type` selects the control range: a float
slider uses 1000 discrete steps with `_scale = (high - low) / 1000`
(lines 109–114), an int slider uses `setRange(low, high)` (line 116).
There is no check that `low < high`. -/
def sliderInit (name : String) (low high : ℚ) (value0 : Option ℚ)
    (value_type orientation update_on : String) : Except String SliderState :=
  let value := value0.getD ((high - low) / 2)
  if orientation = "vertical" ∨ orientation = "horizontal" then
    if value_type = "float" then
      sliderInitCore name low high .vtFloat ((high - low) / 1000) 0 1000 value update_on
    else if value_type = "int" then
      sliderInitCore name low high .vtInt 0 (qtIntOf low) (qtIntOf high) value update_on
    else .error "ValueError: value_type"
  else .error "ValueError: orientation"

/-- `Slider._on_editbox_changed` (`widgets.py` 157–170).  The argument is
the outcome of `float(self.editbox.text())`: `none` when parsing raised
`ValueError` (e.g. the text `"abc"`), `some v` for a parsed number.  On
parse failure or an out-of-range value the edit box is flagged bad and
nothing else changes; otherwise `self.val = value` runs, the edit box is
flagged good, and the callback fires with `(self.name, value)`, returned
here as the second component. -/
def onEditboxChanged (s : SliderState) (parsed : Option ℚ) :
    Except String (SliderState × Option (String × ℚ)) :=
  match parsed with
  | none => .ok ({ s with editGood := false }, none)
  | some value =>
    if s.low ≤ value ∧ value ≤ s.high then
      match setVal s value with
      | .error e => .error e
      | .ok s1 => .ok ({ s1 with editGood := true }, some (s.name, value))
    else .ok ({ s with editGood := false }, none)

/-- The constructor's invariant on the control geometry: a float slider has
the fixed 1000-step range with the derived scale, an int slider has the
native `[low, high]` range. -/
def SliderWF (s : SliderState) : Prop :=
  (s.value_type = .vtFloat →
    s.scale = (s.high - s.low) / 1000 ∧ s.sMin = 0 ∧ s.sMax = 1000) ∧
  (s.value_type = .vtInt → s.sMin = qtIntOf s.low ∧ s.sMax = qtIntOf s.high)

/-!
## Theorems about the PlaybackClock claims
-/

/-- C1: for every running `VideoTimer` (recorded start time, start index,
positive length, positive interval), `next()` emits
`(⌊(now - startTime) / interval⌋ + startIndex) mod length`; in particular
after `start(3, 10)`, a tick exactly one interval after the start emits
frame `4`, and a tick exactly eight intervals after the start emits
`(3 + 8) mod 10 = 1`. -/
theorem C1_running_tick_formula
    (s : TimerState) (now st iv : ℚ) (si n : ℤ)
    (hst : s.start_time = .val st) (hiv : s.interval = some iv)
    (hiv0 : 0 < iv) (hsi : s.start_index = .val si)
    (hn : s.len = some n) (hn0 : 0 < n) :
    timerNext s now = .ok (Int.fmod (Int.floor ((now - st) / iv) + si) n)
    ∧ (∀ t0 : ℚ,
        timerNext (timerStart s 3 10 t0) (t0 + iv) = .ok 4
        ∧ timerNext (timerStart s 3 10 t0) (t0 + 8 * iv) = .ok 1) := by
  have hiv' : iv ≠ 0 := ne_of_gt hiv0
  have hn' : n ≠ 0 := ne_of_gt hn0
  refine ⟨?_, ?_⟩
  · simp [timerNext, hst, hiv, hsi, hn, hiv', hn', pyMod, pyFloorDiv]
  · intro t0
    constructor
    · simp [timerNext, timerStart, hiv, hiv', pyMod, pyFloorDiv]
    · simp [timerNext, timerStart, hiv, hiv', pyMod, pyFloorDiv]

/-- Witness for C1 at a concrete running state: interval `1/2`, started at
time `0` with index `3` and length `10`, observed at time `11/2`. -/
theorem C1_running_tick_formula_witness :
    timerNext
        { interval := some (1/2), tickPeriodMs := some 500,
          start_index := .val 3, len := some 10, start_time := .val 0,
          running := true } (11/2)
      = .ok (Int.fmod (Int.floor (((11:ℚ)/2 - 0) / (1/2)) + 3) 10) :=
  (C1_running_tick_formula _ (11/2) 0 (1/2) 3 10 rfl rfl (by norm_num)
    rfl rfl (by norm_num)).1

/-- C7 counterexample: the claim says a `tick()` in the IDLE state "never
raises an error", but `next()` on a stopped timer evaluates
`time() - None`, a `TypeError`: at the concrete stopped state below the
call errors rather than returning silently. -/
theorem C7_idle_tick_raises :
    timerNext
        (timerStop
          { interval := some 1, tickPeriodMs := some 1000,
            start_index := .val 0, len := some 5, start_time := .val 0,
            running := true }) 1
      = .error "TypeError" := rfl

/-- C7 amended: a `tick()` in the IDLE state emits no frame index, but it
is not silent: after `stop()` it raises `TypeError` (`time() - None` on
the cleared `start_time`), and on a freshly constructed timer before any
`start()` it raises `AttributeError` (`start_time` is never assigned by
`__init__`). -/
theorem C7_idle_tick_errors (s : TimerState) (now t : ℚ) :
    timerNext (timerStop s) now = .error "TypeError"
    ∧ timerNext timerInit t = .error "AttributeError" :=
  ⟨rfl, rfl⟩

/-- C8 counterexample: the claim says `start` raises on `length ≤ 0` and
leaves the state unchanged; in the code `start(0, 0)` performs no
validation, records length `0` and the start time, and changes the state. -/
theorem C8_start_length_zero_accepted :
    (timerStart timerInit 0 0 5).len = some 0
    ∧ (timerStart timerInit 0 0 5).start_time = .val 5
    ∧ timerStart timerInit 0 0 5 ≠ timerInit := by
  refine ⟨rfl, rfl, ?_⟩
  decide

/-- C8 amended: `start(index, length)` validates nothing: it records
`startIndex`, `length` and `startTime = now` unconditionally (for any
`length`, including `length ≤ 0`) and keeps `interval`; the failure
surfaces only at the next tick, where `length = 0` raises
`ZeroDivisionError` on the `%`. -/
theorem C8_start_records_unconditionally (s : TimerState) (i n : ℤ) (t : ℚ) :
    (timerStart s i n t).start_index = .val i
    ∧ (timerStart s i n t).len = some n
    ∧ (timerStart s i n t).start_time = .val t
    ∧ (timerStart s i n t).interval = s.interval
    ∧ timerNext (timerStart { s with interval := some 1 } i 0 t) (t + 1)
        = .error "ZeroDivisionError" := by
  refine ⟨rfl, rfl, rfl, rfl, ?_⟩
  simp [timerNext, timerStart]

/-- C9 counterexample: the claim says setting `fps ≤ 0` raises; the code's
`fps` setter does no validation, so `fps = -1` is accepted and stores the
negative interval `-1`. -/
theorem C9_negative_fps_accepted :
    fpsSet timerInit (-1)
      = .ok { timerInit with interval := some (-1),
                             tickPeriodMs := some (-1000) } := by
  simp [fpsSet, timerInit]

/-- C9 amended: the `fps` setter performs no sign validation: any
`fps ≠ 0` (negative included) is accepted and sets
`interval = 1 / fps`, reconfiguring the Qt tick period to
`interval * 1000` ms; only `fps = 0` raises, with `ZeroDivisionError`;
and a mid-run `fps` change never touches `startIndex`, `length` or
`startTime`. -/
theorem C9_fps_set_behavior (s : TimerState) (v : ℚ) (hv : v ≠ 0) :
    fpsSet s v = .ok { s with interval := some (1 / v),
                              tickPeriodMs := some (1 / v * 1000) }
    ∧ fpsSet s 0 = .error "ZeroDivisionError"
    ∧ (∀ s', fpsSet s v = .ok s' →
        s'.start_index = s.start_index ∧ s'.len = s.len
        ∧ s'.start_time = s.start_time ∧ s'.running = s.running) := by
  refine ⟨by simp [fpsSet, hv], rfl, ?_⟩
  intro s' h
  simp [fpsSet, hv] at h
  subst h
  exact ⟨rfl, rfl, rfl, rfl⟩

/-- Witness for C9 at `fps = 2` on a running timer state. -/
theorem C9_fps_set_behavior_witness :
    fpsSet
        { interval := some 1, tickPeriodMs := some 1000,
          start_index := .val 0, len := some 5, start_time := .val 7,
          running := true } 2
      = .ok { interval := some (1/2), tickPeriodMs := some (1/2 * 1000),
              start_index := .val 0, len := some 5, start_time := .val 7,
              running := true } :=
  (C9_fps_set_behavior _ 2 (by norm_num)).1

/-- C10: a freshly constructed `VideoTimer` has no `_interval` attribute:
reading `fps` raises `AttributeError`, and `start` followed by a tick also
raises `AttributeError` instead of emitting a frame — the clock is unusable
until `fps` has been assigned at least once. -/
theorem C10_fps_required_before_use (i n : ℤ) (t now : ℚ) :
    timerInit.interval = none
    ∧ fpsGet timerInit = .error "AttributeError"
    ∧ timerNext (timerStart timerInit i n t) now = .error "AttributeError" :=
  ⟨rfl, rfl, rfl⟩

/-!
## Theorems about the RangeSlider claims
-/

/-- Evaluate the Qt int conversion at a rational that is an integer. -/
theorem qtIntOf_intCast (k : ℤ) (x : ℚ) (h : x = (k : ℚ)) : qtIntOf x = k := by
  rw [qtIntOf, h, round_intCast]

/-- The concrete float slider built by
`Slider('x', low=0, high=1, value=None)`: default value `1/2`,
control position `500`. -/
def sFloat01 : SliderState :=
  { name := "x", value_type := .vtFloat, low := 0, high := 1,
    scale := 1/1000, sMin := 0, sMax := 1000, position := 500,
    editGood := true }

/-- `sFloat01` really is the state the constructor produces. -/
theorem sliderInit_sFloat01 :
    sliderInit "x" 0 1 none "float" "horizontal" "release" = .ok sFloat01 := by
  have h500 : qtIntOf (500 : ℚ) = 500 := qtIntOf_intCast 500 _ (by norm_num)
  simp [sliderInit, sliderInitCore, setVal, qtClamp, sFloat01]
  norm_num [h500]

/-- `sFloat01` satisfies the constructor's control-geometry invariant. -/
theorem sFloat01_wf : SliderWF sFloat01 := by
  constructor
  · intro _
    refine ⟨by norm_num [sFloat01], rfl, rfl⟩
  · intro h
    simp [sFloat01] at h

/-- C2: on any slider with the constructor's control geometry and
`low < high`, setting an in-range value through the `val` setter and
reading it back through the `val` getter is exact for an int slider, and
accurate to within one discretization step
`scale = (high - low) / 1000` for a float slider. -/
theorem C2_setget_roundtrip
    (s : SliderState) (hwf : SliderWF s) (hlh : s.low < s.high) :
    (s.value_type = .vtInt → ∀ k : ℤ, s.low ≤ (k : ℚ) → (k : ℚ) ≤ s.high →
      ∃ s', setVal s (k : ℚ) = .ok s' ∧ getVal s' = (k : ℚ))
    ∧ (s.value_type = .vtFloat → ∀ v : ℚ, s.low ≤ v → v ≤ s.high →
      ∃ s', setVal s v = .ok s' ∧ |getVal s' - v| ≤ s.scale) := by
  constructor
  · intro hvt k hlo hhi
    obtain ⟨hmin, hmax⟩ := hwf.2 hvt
    have hk : qtIntOf (k : ℚ) = k := qtIntOf_intCast k _ rfl
    have hlo' : qtIntOf s.low ≤ k := by
      rw [← hk, qtIntOf, round_eq, qtIntOf, round_eq]
      exact Int.floor_mono (by linarith)
    have hhi' : k ≤ qtIntOf s.high := by
      rw [← hk, qtIntOf, round_eq, qtIntOf, round_eq]
      exact Int.floor_mono (by linarith)
    refine ⟨{ s with position := qtClamp s.sMin s.sMax (qtIntOf (k : ℚ)) },
      by simp [setVal, hvt], ?_⟩
    simp only [getVal, hvt]
    rw [hk, qtClamp, hmin, hmax, min_eq_right hhi', max_eq_right hlo']
  · intro hvt v hlo hhi
    obtain ⟨hscale, hmin, hmax⟩ := hwf.1 hvt
    have hs0 : 0 < s.scale := by
      rw [hscale]
      exact div_pos (sub_pos.mpr hlh) (by norm_num)
    have hsne : s.scale ≠ 0 := ne_of_gt hs0
    set x : ℚ := (v - s.low) / s.scale with hxdef
    have hx0 : 0 ≤ x := div_nonneg (by linarith) hs0.le
    have hx1000 : x ≤ 1000 := by
      rw [hxdef, div_le_iff₀ hs0, hscale]
      have h1000 : (1000 : ℚ) * ((s.high - s.low) / 1000) = s.high - s.low := by
        ring
      rw [h1000]
      linarith
    have hr0 : (0 : ℤ) ≤ qtIntOf x := by
      rw [qtIntOf, round_eq]
      exact Int.le_floor.mpr (by push_cast; linarith)
    have hr1 : qtIntOf x ≤ 1000 := by
      rw [qtIntOf, round_eq]
      have hlt : (⌊x + 1/2⌋ : ℤ) < 1001 := Int.floor_lt.mpr (by push_cast; linarith)
      omega
    have hclamp : qtClamp s.sMin s.sMax (qtIntOf x) = qtIntOf x := by
      rw [qtClamp, hmin, hmax, min_eq_right hr1, max_eq_right hr0]
    refine ⟨{ s with position := qtClamp s.sMin s.sMax (qtIntOf x) }, ?_, ?_⟩
    · simp only [setVal, hvt]
      rw [if_neg hsne, ← hxdef]
    · simp only [getVal, hvt, hclamp]
      have hvx : v = x * s.scale + s.low := by
        rw [hxdef, div_mul_cancel₀ _ hsne]
        ring
      have habs : |(qtIntOf x : ℚ) - x| ≤ 1 / 2 := by
        rw [qtIntOf, abs_sub_comm]
        exact abs_sub_round x
      calc |(qtIntOf x : ℚ) * s.scale + s.low - v|
          = |((qtIntOf x : ℚ) - x) * s.scale| := by
            rw [hvx]
            ring_nf
        _ = |(qtIntOf x : ℚ) - x| * s.scale := by
            rw [abs_mul, abs_of_pos hs0]
        _ ≤ (1 / 2) * s.scale := mul_le_mul_of_nonneg_right habs hs0.le
        _ ≤ s.scale := by linarith

/-- Witness for C2 on the concrete float slider over `[0, 1]` at value
`1/3`. -/
theorem C2_setget_roundtrip_witness :
    ∃ s', setVal sFloat01 (1/3) = .ok s'
      ∧ |getVal s' - 1/3| ≤ sFloat01.scale :=
  (C2_setget_roundtrip sFloat01 sFloat01_wf (by norm_num [sFloat01])).2 rfl (1/3)
    (by norm_num [sFloat01]) (by norm_num [sFloat01])

/-- C3 counterexample: the claim says a programmatic `setValue` outside
`[low, high]` raises `OutOfRange` and leaves the value unchanged.  On the
float slider over `[0, 1]` holding `1/2`, `val = 5` raises nothing: the
control clamps the position to `1000` and the value becomes `1`. -/
theorem C3_set_out_of_range_no_error :
    setVal sFloat01 5 = .ok { sFloat01 with position := 1000 }
    ∧ getVal { sFloat01 with position := 1000 } = 1
    ∧ getVal sFloat01 = 1/2 := by
  have hr : qtIntOf (5000 : ℚ) = 5000 := qtIntOf_intCast 5000 _ (by norm_num)
  refine ⟨?_, by norm_num [getVal, sFloat01], by norm_num [getVal, sFloat01]⟩
  simp [setVal, sFloat01, qtClamp]
  norm_num [hr]

/-- C3 amended: the `val` setter performs no range check and raises no
`OutOfRange`; an out-of-range value is accepted and the underlying control
clamps the position, so the stored value becomes the violated bound
(`high` when `v > high`, `low` when `v < low`), both for float sliders and
for int sliders with integer bounds. -/
theorem C3_set_out_of_range_clamps
    (s : SliderState) (hwf : SliderWF s) (hlh : s.low < s.high) (v : ℚ) :
    (s.value_type = .vtFloat →
      (s.high < v → ∃ s', setVal s v = .ok s' ∧ getVal s' = s.high)
      ∧ (v < s.low → ∃ s', setVal s v = .ok s' ∧ getVal s' = s.low))
    ∧ (s.value_type = .vtInt → ∀ lo hi : ℤ, s.low = (lo : ℚ) → s.high = (hi : ℚ) →
      (s.high < v → ∃ s', setVal s v = .ok s' ∧ getVal s' = s.high)
      ∧ (v < s.low → ∃ s', setVal s v = .ok s' ∧ getVal s' = s.low)) := by
  constructor
  · intro hvt
    obtain ⟨hscale, hmin, hmax⟩ := hwf.1 hvt
    have hs0 : 0 < s.scale := by
      rw [hscale]
      exact div_pos (sub_pos.mpr hlh) (by norm_num)
    have hsne : s.scale ≠ 0 := ne_of_gt hs0
    have hscale1000 : (1000 : ℚ) * s.scale = s.high - s.low := by
      rw [hscale]
      ring
    constructor
    · intro hv
      have hx : (1000 : ℚ) < (v - s.low) / s.scale := by
        rw [lt_div_iff₀ hs0, hscale1000]
        linarith
      have hr : (1000 : ℤ) ≤ qtIntOf ((v - s.low) / s.scale) := by
        rw [qtIntOf, round_eq]
        exact Int.le_floor.mpr (by push_cast; linarith)
      have hset : setVal s v = .ok { s with position := qtClamp s.sMin s.sMax (qtIntOf ((v - s.low) / s.scale)) } := by
        simp [setVal, hvt, hsne]
      refine ⟨_, hset, ?_⟩
      simp only [getVal, hvt, qtClamp, hmin, hmax]
      rw [min_eq_left hr, max_eq_right (by norm_num : (0:ℤ) ≤ 1000)]
      push_cast
      linarith
    · intro hv
      have hx : (v - s.low) / s.scale < 0 :=
        div_neg_of_neg_of_pos (by linarith) hs0
      have hr : qtIntOf ((v - s.low) / s.scale) ≤ 0 := by
        rw [qtIntOf, round_eq]
        have hlt : ⌊(v - s.low) / s.scale + 1/2⌋ < 1 :=
          Int.floor_lt.mpr (by push_cast; linarith)
        omega
      have hset : setVal s v = .ok { s with position := qtClamp s.sMin s.sMax (qtIntOf ((v - s.low) / s.scale)) } := by
        simp [setVal, hvt, hsne]
      refine ⟨_, hset, ?_⟩
      simp only [getVal, hvt, qtClamp, hmin, hmax]
      rw [min_eq_right (le_trans hr (by norm_num)), max_eq_left hr]
      push_cast
      ring
  · intro hvt lo hi hlo hhi
    obtain ⟨hmin, hmax⟩ := hwf.2 hvt
    have hlo' : qtIntOf s.low = lo := qtIntOf_intCast lo _ hlo
    have hhi' : qtIntOf s.high = hi := qtIntOf_intCast hi _ hhi
    have hlohi : lo ≤ hi := by
      have := hlh
      rw [hlo, hhi] at this
      exact_mod_cast this.le
    constructor
    · intro hv
      have hr : hi ≤ qtIntOf v := by
        rw [qtIntOf, round_eq]
        refine Int.le_floor.mpr ?_
        rw [hhi] at hv
        linarith
      refine ⟨{ s with position := qtClamp s.sMin s.sMax (qtIntOf v) },
        by simp [setVal, hvt], ?_⟩
      simp only [getVal, hvt]
      rw [qtClamp, hmin, hmax, hlo', hhi', min_eq_left hr, max_eq_right hlohi, hhi]
    · intro hv
      have hr : qtIntOf v ≤ lo := by
        rw [qtIntOf, round_eq]
        rw [hlo] at hv
        have hlt : ⌊v + 1/2⌋ < lo + 1 := Int.floor_lt.mpr (by push_cast; linarith)
        omega
      refine ⟨{ s with position := qtClamp s.sMin s.sMax (qtIntOf v) },
        by simp [setVal, hvt], ?_⟩
      simp only [getVal, hvt]
      rw [qtClamp, hmin, hmax, hlo', hhi', min_eq_right (le_trans hr hlohi),
        max_eq_left hr, hlo]

/-- Witness for C3 (amended) on the float slider over `[0, 1]` at the
out-of-range value `5`: the set succeeds and the value clamps to `1`. -/
theorem C3_set_out_of_range_clamps_witness :
    ∃ s', setVal sFloat01 5 = .ok s' ∧ getVal s' = sFloat01.high :=
  ((C3_set_out_of_range_clamps sFloat01 sFloat01_wf (by norm_num [sFloat01])
    5).1 rfl).1 (by norm_num [sFloat01])

/-- C4 counterexample: the claim says construction raises
`InvalidArgument` when `low >= high`; the constructor never compares
`low` with `high`, and `Slider('s', low=2, high=1)` (float, defaults)
constructs successfully, with a negative scale `(1 - 2)/1000` and the
default value `(1 - 2)/2 = -1/2` clamped by the control to position
`1000`. -/
theorem C4_low_ge_high_accepted :
    sliderInit "s" 2 1 none "float" "horizontal" "release"
      = .ok { name := "s", value_type := .vtFloat, low := 2, high := 1, scale := (1 - 2)/1000, sMin := 0, sMax := 1000, position := 1000, editGood := true } := by
  have hr : qtIntOf (2500 : ℚ) = 2500 := qtIntOf_intCast 2500 _ (by norm_num)
  simp [sliderInit, sliderInitCore, setVal, qtClamp]
  norm_num [hr]

/-- C4 amended: `Slider.__init__` raises `ValueError` for an unknown
`orientation`, `value_type` or `update_on` string, but never checks
`low >= high`: with valid enum strings a float slider constructs for every
`low ≠ high` (including `low > high`), an int slider for all bounds, and
the only failing bounds case is the float slider with `low = high`, which
dies with `ZeroDivisionError` while setting the initial value — not with
a validation error. -/
theorem C4_construct_validation
    (name : String) (low high : ℚ) (v0 : Option ℚ) (vt orient upd : String) :
    (¬(orient = "vertical" ∨ orient = "horizontal") →
      sliderInit name low high v0 vt orient upd = .error "ValueError: orientation")
    ∧ ((orient = "vertical" ∨ orient = "horizontal") → vt ≠ "float" → vt ≠ "int" →
      sliderInit name low high v0 vt orient upd = .error "ValueError: value_type")
    ∧ ((orient = "vertical" ∨ orient = "horizontal") → low ≠ high →
      ¬(upd = "move" ∨ upd = "release") →
      sliderInit name low high v0 "float" orient upd = .error "ValueError: update_on")
    ∧ ((orient = "vertical" ∨ orient = "horizontal") →
      (upd = "move" ∨ upd = "release") → low ≠ high →
      ∃ s, sliderInit name low high v0 "float" orient upd = .ok s)
    ∧ ((orient = "vertical" ∨ orient = "horizontal") → low = high →
      sliderInit name low high v0 "float" orient upd = .error "ZeroDivisionError")
    ∧ ((orient = "vertical" ∨ orient = "horizontal") →
      (upd = "move" ∨ upd = "release") →
      ∃ s, sliderInit name low high v0 "int" orient upd = .ok s) := by
  have hscale : low ≠ high → ((high - low) / 1000 : ℚ) ≠ 0 := fun h =>
    div_ne_zero (sub_ne_zero.mpr (Ne.symm h)) (by norm_num)
  refine ⟨?_, ?_, ?_, ?_, ?_, ?_⟩
  · intro h
    simp only [sliderInit]
    rw [if_neg h]
  · intro ho h1 h2
    simp only [sliderInit]
    rw [if_pos ho, if_neg h1, if_neg h2]
  · intro ho hne hupd
    simp only [sliderInit, sliderInitCore]
    rw [if_pos ho]
    simp only [setVal, if_neg (hscale hne)]
    rw [if_neg hupd]
    simp
  · intro ho hupd hne
    simp only [sliderInit, sliderInitCore]
    rw [if_pos ho]
    simp only [setVal, if_neg (hscale hne)]
    rw [if_pos hupd]
    exact ⟨_, rfl⟩
  · intro ho heq
    subst heq
    simp only [sliderInit, sliderInitCore]
    rw [if_pos ho]
    simp [setVal, sub_self]
  · intro ho hupd
    simp only [sliderInit, sliderInitCore]
    rw [if_pos ho]
    simp only [setVal]
    rw [if_pos hupd]
    exact ⟨_, rfl⟩

/-- Witness for C4 (amended): a float slider with `low = 2 > 1 = high`
and `update_on='move'` constructs without any error. -/
theorem C4_construct_validation_witness :
    ∃ s, sliderInit "s" 2 1 none "float" "horizontal" "move" = .ok s :=
  (C4_construct_validation "s" 2 1 none "float" "horizontal" "move").2.2.2.1
    (Or.inr rfl) (Or.inl rfl) (by norm_num)

/-- The state `Slider('s', low=10, high=20)` (float, defaults) actually
produces: the buggy default value `(20 - 10)/2 = 5` lies below `low`,
so the control clamps the initial position to `0`. -/
def sFloat1020 : SliderState :=
  { name := "s", value_type := .vtFloat, low := 10, high := 20,
    scale := (20 - 10)/1000, sMin := 0, sMax := 1000, position := 0,
    editGood := true }

/-- C5: the claim (and the class docstring: "If None, use midpoint
between `low` and `high`") promises the default initial value
`(low + high)/2`; the code computes `value = (high - low) / 2.`
(`widgets.py` line 86).  For `Slider('s', 10, 20)` that default is `5`,
outside the domain; the control clamps it and the observable initial
value is `10`, not the midpoint `15`. -/
theorem C5_default_not_midpoint :
    sliderInit "s" 10 20 none "float" "horizontal" "release" = .ok sFloat1020
    ∧ getVal sFloat1020 = 10
    ∧ getVal sFloat1020 ≠ (10 + 20) / 2 := by
  have hr : qtIntOf (-500 : ℚ) = -500 := qtIntOf_intCast (-500) _ (by norm_num)
  refine ⟨?_, by norm_num [getVal, sFloat1020], by norm_num [getVal, sFloat1020]⟩
  simp [sliderInit, sliderInitCore, setVal, qtClamp, sFloat1020]
  norm_num [hr]

/-- C6: `_on_editbox_changed` with unparseable text (e.g. `"abc"`) or an
out-of-range parsed value leaves the control position — and hence the
value — unchanged, turns on the red invalid-input indicator, and does not
invoke the callback; with a parseable in-range value it runs the `val`
setter, restores the good indicator, and invokes the callback with
`(name, value)`. -/
theorem C6_editbox_validated_input (s : SliderState) (parsed : Option ℚ)
    (hscale : s.value_type = .vtFloat → s.scale ≠ 0) :
    (parsed = none →
      onEditboxChanged s parsed = .ok ({ s with editGood := false }, none))
    ∧ (∀ v, parsed = some v → ¬(s.low ≤ v ∧ v ≤ s.high) →
      onEditboxChanged s parsed = .ok ({ s with editGood := false }, none))
    ∧ (∀ v, parsed = some v → s.low ≤ v → v ≤ s.high →
      ∃ s', setVal s v = .ok s'
        ∧ onEditboxChanged s parsed
            = .ok ({ s' with editGood := true }, some (s.name, v))) := by
  refine ⟨?_, ?_, ?_⟩
  · rintro rfl
    rfl
  · rintro v rfl h
    simp [onEditboxChanged, h]
  · rintro v rfl hlo hhi
    cases hvt : s.value_type with
    | vtFloat =>
      have hsne := hscale hvt
      have hset : setVal s v = .ok { s with position := qtClamp s.sMin s.sMax (qtIntOf ((v - s.low) / s.scale)) } := by
        simp [setVal, hvt, hsne]
      exact ⟨_, hset, by simp [onEditboxChanged, hlo, hhi, hset]⟩
    | vtInt =>
      have hset : setVal s v = .ok { s with position := qtClamp s.sMin s.sMax (qtIntOf v) } := by
        simp [setVal, hvt]
      exact ⟨_, hset, by simp [onEditboxChanged, hlo, hhi, hset]⟩

/-- Witness for C6 on the float slider over `[0, 1]` with unparseable
text: the state only changes its indicator, and no callback fires. -/
theorem C6_editbox_validated_input_witness :
    onEditboxChanged sFloat01 none
      = .ok ({ sFloat01 with editGood := false }, none) :=
  (C6_editbox_validated_input sFloat01 none
    (fun _ => by norm_num [sFloat01])).1 rfl
